import Mathlib

/-!
Verification of the `enum_cast` repository (src/enum_cast.cpp and
src/enum_flag_bits_cast.cpp) against its natural-language specification.

Modelling choices, shared by all definitions below:

* A C++ enum value is represented by its underlying integral representation,
  a `Nat` (every enumerant declared in the repository is a small non-negative
  `int`).  Equality of enum values is equality of the underlying `Nat`s, and
  `static_cast<Dst>(0)` is the `Nat` `0`.
* A mapping table `enum_mapping_traits<Tag>::mappings` is a `List` of tuples;
  the compile-time slot selection `std::get<Src>` / `std::get<Dst>` is a
  projection function `M → Nat` out of the tuple type `M`.
* `enum_flag_bits_cast` in the source declares its accumulator
  `UnderlyingType dst;` WITHOUT initializing it and then ORs into it.  The
  value read from the uninitialized stack slot is indeterminate, so the
  embedding takes it as an explicit extra argument `dst` (the initial
  accumulator contents); the behaviour the program actually exhibits is the
  function at some unknown value of that argument.
-/

/-- `enum_cast` (src/enum_cast.cpp lines 51-64): scan the category's mapping
table in declared order; on the first entry whose `Src` slot equals `src`
return that entry's `Dst` slot; if the scan falls off the end, return
`static_cast<Dst>(0)`, i.e. `0`. -/
def enum_cast {M : Type} (getSrc getDst : M → Nat) : List M → Nat → Nat
  | [], _ => 0
  | m :: rest, src =>
    if getSrc m = src then getDst m else enum_cast getSrc getDst rest src

/-- `enum_flag_bits_cast` (src/enum_flag_bits_cast.cpp lines 48-63): for each
entry of the mapping table, if `get<Src>(mapping) & src` is non-zero, OR the
entry's `Dst` slot into the accumulator `dst`.  The source never initializes
`dst`, so its initial (indeterminate) contents are the explicit last
argument. -/
def enum_flag_bits_cast {M : Type} (getSrc getDst : M → Nat) :
    List M → Nat → Nat → Nat
  | [], _, dst => dst
  | m :: rest, src, dst =>
    enum_flag_bits_cast getSrc getDst rest src
      (if getSrc m &&& src ≠ 0 then dst ||| getDst m else dst)

/-- The generic `operator|` for enum operands (src/enum_flag_bits_cast.cpp
lines 94-99) works on a wrapped enum value; `underlying` models
`static_cast<UnderlyingType>(value)`. -/
structure EnumRepr where
  underlying : Nat
deriving DecidableEq

/-- `static_cast<Enum>(n)`: re-wrap an underlying integer as the enum type. -/
def static_cast_enum (n : Nat) : EnumRepr := ⟨n⟩

/-- `operator|(Enum a, Enum b)` from src/enum_flag_bits_cast.cpp lines 94-99:
cast both operands to the underlying type, OR them, cast back. -/
def enumOr (a b : EnumRepr) : EnumRepr :=
  static_cast_enum (a.underlying ||| b.underlying)

/- Concrete enumerants declared by the repository. -/

namespace lib_a

/-- `lib_a::Color` (src/enum_cast.cpp line 86). -/
def Color.Red : Nat := 3
def Color.Green : Nat := 4
def Color.Blue : Nat := 5

/-- `lib_a::Shape` (src/enum_cast.cpp line 87). -/
def Shape.Circle : Nat := 1
def Shape.Square : Nat := 9
def Shape.Triangle : Nat := 16

/-- `lib_a::Permission` (src/enum_flag_bits_cast.cpp lines 66-76). -/
def Permission.None : Nat := 0x00
def Permission.Read : Nat := 0x01
def Permission.Write : Nat := 0x02
def Permission.Execute : Nat := 0x04
def Permission.ReadWrite : Nat := Permission.Read ||| Permission.Write
def Permission.ReadExecute : Nat := Permission.Read ||| Permission.Execute
def Permission.WriteExecute : Nat := Permission.Write ||| Permission.Execute
def Permission.All : Nat := Permission.Read ||| Permission.Write ||| Permission.Execute

end lib_a

namespace lib_b

/-- `lib_b::Color` (src/enum_cast.cpp line 91). -/
def Color.Red : Nat := 0
def Color.Green : Nat := 1
def Color.Blue : Nat := 2
def Color.Yellow : Nat := 3

/-- `lib_b::Shape` (src/enum_cast.cpp line 92). -/
def Shape.Circle : Nat := 0
def Shape.Square : Nat := 1
def Shape.Triangle : Nat := 2

/-- `lib_b::Permission` (src/enum_flag_bits_cast.cpp lines 79-87). -/
def Permission.NONE : Nat := 0
def Permission.READ : Nat := 1 <<< 2
def Permission.WRITE : Nat := 1 <<< 3
def Permission.EXECUTE : Nat := 1 <<< 4

end lib_b

namespace lib_c

/-- `lib_c::Color` (src/enum_cast.cpp line 96). -/
def Color.Red : Nat := 9
def Color.Green : Nat := 100
def Color.Blue : Nat := 101

/-- `lib_c::Shape` (src/enum_cast.cpp line 97). -/
def Shape.Circle : Nat := 2
def Shape.Square : Nat := 3
def Shape.Triangle : Nat := 4

end lib_c

/-- Slot projection `std::get<lib_a::...>` out of a three-member tuple. -/
def slotA (m : Nat × Nat × Nat) : Nat := m.1

/-- Slot projection `std::get<lib_b::...>` out of a three-member tuple. -/
def slotB (m : Nat × Nat × Nat) : Nat := m.2.1

/-- Slot projection `std::get<lib_c::...>` out of a three-member tuple. -/
def slotC (m : Nat × Nat × Nat) : Nat := m.2.2

/-- Slot projection `std::get<lib_a::Permission>` out of a pair. -/
def pairSlotA (m : Nat × Nat) : Nat := m.1

/-- Slot projection `std::get<lib_b::Permission>` out of a pair. -/
def pairSlotB (m : Nat × Nat) : Nat := m.2

/-- `enum_mapping_traits<EnumColorTag>::mappings` (src/enum_cast.cpp
lines 113-122). -/
def colorMappings : List (Nat × Nat × Nat) :=
  [ (lib_a.Color.Red, lib_b.Color.Red, lib_c.Color.Red),
    (lib_a.Color.Green, lib_b.Color.Green, lib_c.Color.Green),
    (lib_a.Color.Blue, lib_b.Color.Blue, lib_c.Color.Blue) ]

/-- `enum_mapping_traits<EnumShapeTag>::mappings` (src/enum_cast.cpp
lines 135-144). -/
def shapeMappings : List (Nat × Nat × Nat) :=
  [ (lib_a.Shape.Circle, lib_b.Shape.Circle, lib_c.Shape.Circle),
    (lib_a.Shape.Square, lib_b.Shape.Square, lib_c.Shape.Square),
    (lib_a.Shape.Triangle, lib_b.Shape.Triangle, lib_c.Shape.Triangle) ]

/-- `enum_mapping_traits<PermissionTag>::mappings`
(src/enum_flag_bits_cast.cpp lines 107-117). -/
def permissionMappings : List (Nat × Nat) :=
  [ (lib_a.Permission.None, lib_b.Permission.NONE),
    (lib_a.Permission.Read, lib_b.Permission.READ),
    (lib_a.Permission.Write, lib_b.Permission.WRITE),
    (lib_a.Permission.Execute, lib_b.Permission.EXECUTE) ]

/-- The enum types participating in the example categories. -/
inductive EnumId where
  | libAColor | libBColor | libCColor
  | libAShape | libBShape | libCShape
  | libAPermission | libBPermission
deriving DecidableEq

/-- The category tag types `EnumColorTag`, `EnumShapeTag`, `PermissionTag`. -/
inductive CategoryTag where
  | enumColorTag | enumShapeTag | permissionTag
deriving DecidableEq

/-- The `enum_category` specializations (src/enum_cast.cpp lines 109-111 and
131-133, src/enum_flag_bits_cast.cpp lines 104-105). -/
def enum_category : EnumId → CategoryTag
  | .libAColor | .libBColor | .libCColor => .enumColorTag
  | .libAShape | .libBShape | .libCShape => .enumShapeTag
  | .libAPermission | .libBPermission => .permissionTag

/-- The condition of the `static_assert` guarding both converters
(src/enum_cast.cpp lines 54-55, src/enum_flag_bits_cast.cpp lines 51-52):
`std::is_same_v<enum_category_t<Src>, enum_category_t<Dst>>`.  A call
compiles only when this evaluates to `true`; when it is `false` the build
fails with the message "Source and destination enums must be of the same
category" and no runtime code is produced for the call. -/
def same_category_check (dst src : EnumId) : Bool :=
  enum_category dst == enum_category src

/- Helper lemmas shared by several theorems below. -/

/-- The scan loop of `enum_cast` computes exactly `List.find?`: if the first
entry whose source slot equals `src` is `m`, then `enum_cast` returns the
destination slot of `m`. -/
theorem enum_cast_eq_getDst_of_find {M : Type} (getSrc getDst : M → Nat)
    (mappings : List M) (src : Nat) (m : M)
    (h : mappings.find? (fun e => getSrc e == src) = some m) :
    enum_cast getSrc getDst mappings src = getDst m := by
  induction mappings with
  | nil => simp at h
  | cons hd tl ih =>
    by_cases hc : getSrc hd = src
    · rw [List.find?_cons_of_pos _ (by simpa using hc)] at h
      cases h
      simp [enum_cast, hc]
    · rw [List.find?_cons_of_neg _ (by simpa using hc)] at h
      simp only [enum_cast, if_neg hc]
      exact ih h

/-- If some list member satisfies the predicate, `List.find?` succeeds. -/
theorem find_some_of_mem {M : Type} (p : M → Bool) (l : List M) (m : M)
    (hm : m ∈ l) (hp : p m = true) : ∃ m2, l.find? p = some m2 := by
  induction l with
  | nil => cases hm
  | cons hd tl ih =>
    by_cases hc : p hd = true
    · exact ⟨hd, List.find?_cons_of_pos _ hc⟩
    · cases hm with
      | head => exact absurd hp hc
      | tail _ hmem =>
        obtain ⟨m2, h2⟩ := ih hmem
        exact ⟨m2, by rw [List.find?_cons_of_neg _ hc]; exact h2⟩

/-- Claim C1: for every source value `v` of enum type `Src` and destination
type `Dst` in the same category, `enum_cast<Dst>(v)` scans the category's
mapping table in declared order and returns the `Dst`-slot of the first entry
whose `Src`-slot equals `v` (the first such entry being what `List.find?`
yields). -/
theorem enum_cast_returns_first_match {M : Type} (getSrc getDst : M → Nat)
    (mappings : List M) (src : Nat) (m : M)
    (h : mappings.find? (fun e => getSrc e == src) = some m) :
    enum_cast getSrc getDst mappings src = getDst m :=
  enum_cast_eq_getDst_of_find getSrc getDst mappings src m h

/-- Witness for C1: in the Color table the first (and only) entry whose
`lib_a::Color` slot is `Red` is the Red row, and `enum_cast` returns its
`lib_b::Color` slot. -/
theorem enum_cast_returns_first_match_witness :
    colorMappings.find? (fun e => slotA e == lib_a.Color.Red) =
      some (lib_a.Color.Red, lib_b.Color.Red, lib_c.Color.Red) ∧
    enum_cast slotA slotB colorMappings lib_a.Color.Red =
      slotB (lib_a.Color.Red, lib_b.Color.Red, lib_c.Color.Red) :=
  ⟨by decide,
   enum_cast_returns_first_match slotA slotB colorMappings lib_a.Color.Red
     (lib_a.Color.Red, lib_b.Color.Red, lib_c.Color.Red) (by decide)⟩

/-- Claim C2: for every source value `v` not present in any mapping entry's
`Src`-slot, `enum_cast<Dst>(v)` returns the destination type's zero value
(`static_cast<Dst>(0)`, modelled as `0`), without signaling any error. -/
theorem enum_cast_miss_returns_zero {M : Type} (getSrc getDst : M → Nat)
    (mappings : List M) (src : Nat)
    (h : ∀ m ∈ mappings, getSrc m ≠ src) :
    enum_cast getSrc getDst mappings src = 0 := by
  induction mappings with
  | nil => rfl
  | cons hd tl ih =>
    have hhd : getSrc hd ≠ src := h hd (List.mem_cons_self hd tl)
    simp only [enum_cast, if_neg hhd]
    exact ih fun m hm => h m (List.mem_cons_of_mem hd hm)

/-- Witness for C2 (the spec's concrete scenario 3): a raw `42` cast into
`lib_a::Color` matches no entry, so converting it to `lib_b::Color` yields the
zero value. -/
theorem enum_cast_miss_returns_zero_witness :
    (∀ m ∈ colorMappings, slotA m ≠ 42) ∧
    enum_cast slotA slotB colorMappings 42 = 0 :=
  ⟨by decide, enum_cast_miss_returns_zero slotA slotB colorMappings 42 (by decide)⟩

/-- Claim C3 (code-bug demonstration): the claim and the spec require the
accumulator of `enum_flag_bits_cast` to start at zero, so that a value
intersecting no entry converts to the zero value of `Dst`.  The source
declares `UnderlyingType dst;` without initializing it
(src/enum_flag_bits_cast.cpp line 56): converting
`lib_a::Permission::None` (underlying 0, which passes no AND test) returns
whatever indeterminate value `dst0` the accumulator started with, which is
the zero value of `Dst` only when the garbage happens to be zero. -/
theorem enum_flag_bits_cast_returns_garbage_on_no_match :
    ∀ dst0 : Nat,
      enum_flag_bits_cast pairSlotA pairSlotB permissionMappings
        lib_a.Permission.None dst0 = dst0 := by
  intro dst0
  rfl

/-- Claim C4 (code-bug demonstration): `enum_flag_bits_cast` is not
deterministic, because its result depends on the indeterminate initial
contents of the uninitialized accumulator: two invocations on
`lib_b::READ` whose stack slots happen to hold 0 and 8 return different
results (1 versus 9). -/
theorem enum_flag_bits_cast_not_deterministic :
    enum_flag_bits_cast pairSlotB pairSlotA permissionMappings
      lib_b.Permission.READ 0 ≠
    enum_flag_bits_cast pairSlotB pairSlotA permissionMappings
      lib_b.Permission.READ 8 := by
  decide

/-- Claim C5: round-trip.  If some mapping entry's `A`-slot equals `v` and the
mapping is a bijection on that value (every entry sharing the `B`-slot of an
entry whose `A`-slot is `v` itself has `A`-slot `v`), then
`enum_cast<A>(enum_cast<B>(v)) = v`. -/
theorem enum_cast_round_trip {M : Type} (getA getB : M → Nat)
    (mappings : List M) (v : Nat)
    (hv : ∃ m ∈ mappings, getA m = v)
    (hbij : ∀ m1 ∈ mappings, ∀ m2 ∈ mappings,
      getA m1 = v → getB m2 = getB m1 → getA m2 = v) :
    enum_cast getB getA mappings (enum_cast getA getB mappings v) = v := by
  obtain ⟨m0, hm0, hA0⟩ := hv
  obtain ⟨m1, hfind1⟩ :=
    find_some_of_mem (fun e => getA e == v) mappings m0 hm0 (by simpa using hA0)
  have hA1 : getA m1 = v := by simpa using List.find?_some hfind1
  have hm1 : m1 ∈ mappings := List.mem_of_find?_eq_some hfind1
  have hc1 : enum_cast getA getB mappings v = getB m1 :=
    enum_cast_eq_getDst_of_find getA getB mappings v m1 hfind1
  obtain ⟨m2, hfind2⟩ :=
    find_some_of_mem (fun e => getB e == getB m1) mappings m1 hm1 (by simp)
  have hB2 : getB m2 = getB m1 := by simpa using List.find?_some hfind2
  have hm2 : m2 ∈ mappings := List.mem_of_find?_eq_some hfind2
  have hc2 : enum_cast getB getA mappings (getB m1) = getA m2 :=
    enum_cast_eq_getDst_of_find getB getA mappings (getB m1) m2 hfind2
  rw [hc1, hc2]
  exact hbij m1 hm1 m2 hm2 hA1 hB2

/-- Witness for C5: round-trip of `lib_a::Color::Red` through `lib_b::Color`
over the Color table. -/
theorem enum_cast_round_trip_witness :
    (∃ m ∈ colorMappings, slotA m = lib_a.Color.Red) ∧
    enum_cast slotB slotA colorMappings
      (enum_cast slotA slotB colorMappings lib_a.Color.Red) = lib_a.Color.Red :=
  ⟨by decide,
   enum_cast_round_trip slotA slotB colorMappings lib_a.Color.Red
     (by decide) (by decide)⟩

/-- Claim C6 (code-bug demonstration): the flag-union law
`enum_flag_bits_cast(bitA | bitB) = enum_flag_bits_cast(bitA) |
enum_flag_bits_cast(bitB)` does hold at `bitA = lib_a::Read`,
`bitB = lib_a::Write` when every accumulator starts at the intended zero
(first conjunct), but the source leaves the accumulator uninitialized, and a
garbage initial value of 16 in one of the three invocations breaks the
equation (second conjunct). -/
theorem enum_flag_bits_cast_union_garbage :
    enum_flag_bits_cast pairSlotA pairSlotB permissionMappings
        (lib_a.Permission.Read ||| lib_a.Permission.Write) 0 =
      (enum_flag_bits_cast pairSlotA pairSlotB permissionMappings
          lib_a.Permission.Read 0 |||
       enum_flag_bits_cast pairSlotA pairSlotB permissionMappings
          lib_a.Permission.Write 0) ∧
    enum_flag_bits_cast pairSlotA pairSlotB permissionMappings
        (lib_a.Permission.Read ||| lib_a.Permission.Write) 0 ≠
      (enum_flag_bits_cast pairSlotA pairSlotB permissionMappings
          lib_a.Permission.Read 16 |||
       enum_flag_bits_cast pairSlotA pairSlotB permissionMappings
          lib_a.Permission.Write 0) := by
  decide

/-- Claim C7: with the declared Color table,
`enum_cast<lib_a::Color>(lib_c::Color::Red)` returns `lib_a::Color::Red`, and
`enum_cast<lib_b::Color>(lib_a::Color::Red)` returns `lib_b::Color::Red`. -/
theorem enum_cast_color_scenario :
    enum_cast slotC slotA colorMappings lib_c.Color.Red = lib_a.Color.Red ∧
    enum_cast slotA slotB colorMappings lib_a.Color.Red = lib_b.Color.Red := by
  decide

/-- Claim C8: for every pair of enum types whose categories differ, the
`static_assert` condition guarding both converters evaluates to `false`, so
the call fails at build time with the assert's descriptive message and never
reaches runtime. -/
theorem mismatched_category_check_fails (dst src : EnumId)
    (h : enum_category dst ≠ enum_category src) :
    same_category_check dst src = false := by
  simp only [same_category_check, beq_eq_false_iff_ne, ne_eq]
  exact h

/-- Witness for C8: `lib_a::Color` and `lib_a::Shape` are in different
categories and the assert condition is `false` for them. -/
theorem mismatched_category_check_fails_witness :
    enum_category EnumId.libAColor ≠ enum_category EnumId.libAShape ∧
    same_category_check EnumId.libAColor EnumId.libAShape = false :=
  ⟨by decide,
   mismatched_category_check_fails EnumId.libAColor EnumId.libAShape (by decide)⟩

/-- Claim C9: the supplied `operator|` is the underlying-integer OR
re-wrapped: for all enum values `a`, `b`, the underlying representation of
`a | b` is `underlying(a) OR underlying(b)`, and `a | b` is exactly
`static_cast<Enum>` of that OR. -/
theorem enumOr_is_underlying_or (a b : EnumRepr) :
    (enumOr a b).underlying = a.underlying ||| b.underlying ∧
    enumOr a b = static_cast_enum (a.underlying ||| b.underlying) :=
  ⟨rfl, rfl⟩

/-- Claim C10: a mapping entry whose `Src`-slot has underlying representation
0 never passes the AND test of `enum_flag_bits_cast` and never contributes its
`Dst`-slot bits: deleting such an entry from anywhere in the table leaves the
result unchanged, for every input value and every initial accumulator
contents. -/
theorem zero_src_entry_never_contributes {M : Type} (getSrc getDst : M → Nat)
    (l1 l2 : List M) (m : M) (hm : getSrc m = 0) (src dst0 : Nat) :
    enum_flag_bits_cast getSrc getDst (l1 ++ m :: l2) src dst0 =
      enum_flag_bits_cast getSrc getDst (l1 ++ l2) src dst0 := by
  induction l1 generalizing dst0 with
  | nil =>
    simp [enum_flag_bits_cast, hm]
  | cons hd tl ih =>
    simp only [List.cons_append, enum_flag_bits_cast]
    exact ih _

/-- Witness for C10: the `(lib_a::None, lib_b::NONE)` entry of the Permission
table is inert, including at input value 0. -/
theorem zero_src_entry_never_contributes_witness :
    pairSlotA (lib_a.Permission.None, lib_b.Permission.NONE) = 0 ∧
    enum_flag_bits_cast pairSlotA pairSlotB permissionMappings
        lib_a.Permission.None 0 =
      enum_flag_bits_cast pairSlotA pairSlotB
        [ (lib_a.Permission.Read, lib_b.Permission.READ),
          (lib_a.Permission.Write, lib_b.Permission.WRITE),
          (lib_a.Permission.Execute, lib_b.Permission.EXECUTE) ]
        lib_a.Permission.None 0 :=
  ⟨rfl,
   zero_src_entry_never_contributes pairSlotA pairSlotB []
     [ (lib_a.Permission.Read, lib_b.Permission.READ),
       (lib_a.Permission.Write, lib_b.Permission.WRITE),
       (lib_a.Permission.Execute, lib_b.Permission.EXECUTE) ]
     (lib_a.Permission.None, lib_b.Permission.NONE) rfl lib_a.Permission.None 0⟩
